import Mathlib

/-!
Verification development for the search-orchestration core of this repository
(`src/lib/search/*`, `src/lib/utils/streaming.ts`).

Shallow embedding conventions:
* JavaScript numbers are idealised as exact rationals (`ℚ`); `x / 0` is `0`
  (the one JS `NaN` corner, an empty query-term list, is noted where it occurs).
* JavaScript strings are `String`, manipulated through their character lists
  (`String.data`); `.length`, `.toLowerCase()`, `.split(...)`, `.includes(...)`,
  `.trim()` and word-boundary regex matching are implemented below for the
  ASCII fragment actually exercised by the code.
* Asynchronous collaborator calls (embeddings, chat model, search backend) are
  deterministic oracles passed in as plain functions or score vectors.
* `new URL(url).hostname` (host-library URL parsing) is abstracted as an
  arbitrary total function `domainOf : String → String`.
* `Date.now()` based timestamps and durations are omitted; the current year
  used by the freshness signal is an explicit parameter.
-/

set_option maxRecDepth 4000

namespace Ari

/-! ## JavaScript string primitives (over `String.data`) -/

/-- JS `\s` whitespace, restricted to the ASCII characters that occur here. -/
def jsIsWs (c : Char) : Bool := c = ' ' || c = '\t' || c = '\n' || c = '\r'

/-- JS `\w` word characters: `[A-Za-z0-9_]`. -/
def jsIsWordChar (c : Char) : Bool := c.isAlphanum || c = '_'

/-- Sentence-ending punctuation class `[.!?]` from `calculateContentQuality`. -/
def jsIsSentenceSep (c : Char) : Bool := c = '.' || c = '!' || c = '?'

/-- `s.toLowerCase()` as a character list. -/
def lowerChars (s : String) : List Char := s.data.map Char.toLower

/-- Worker for `jsSplitOn`: `cur` is the reversed current piece, `prevSep`
records whether the previous character belonged to a separator run. -/
def splitRunsGo (p : Char → Bool) : List Char → List Char → Bool → List (List Char)
  | [], cur, _ => [cur.reverse]
  | c :: rest, cur, prevSep =>
    if p c then
      if prevSep then splitRunsGo p rest cur true
      else cur.reverse :: splitRunsGo p rest [] true
    else splitRunsGo p rest (c :: cur) false

/-- JS `str.split(/[pp]+/)`: split on maximal runs of characters satisfying
`p`, keeping the empty boundary pieces JS produces (`" a".split(/\s+/) =
["", "a"]`). -/
def jsSplitOn (p : Char → Bool) (l : List Char) : List (List Char) :=
  splitRunsGo p l [] false

/-- JS `str.split(/\s+/)`. -/
def jsSplitWs (l : List Char) : List (List Char) := jsSplitOn jsIsWs l

/-- JS `str.split(c)` for a single-character separator (no run collapsing). -/
def jsSplitChar (sep : Char) : List Char → List (List Char)
  | [] => [[]]
  | c :: rest =>
    if c = sep then [] :: jsSplitChar sep rest
    else
      match jsSplitChar sep rest with
      | [] => [[c]]
      | piece :: t => (c :: piece) :: t

/-- JS `str.trim()` (ASCII whitespace). -/
def jsTrim (l : List Char) : List Char :=
  ((l.dropWhile jsIsWs).reverse.dropWhile jsIsWs).reverse

/-- Is `pre` a prefix of `l`? -/
def isPfx : List Char → List Char → Bool
  | [], _ => true
  | _ :: _, [] => false
  | a :: as, b :: bs => a = b && isPfx as bs

/-- JS `hay.includes(needle)`. -/
def containsSub (needle : List Char) : List Char → Bool
  | [] => isPfx needle []
  | c :: t => isPfx needle (c :: t) || containsSub needle t

/-- Number of matches of `new RegExp('\\b' + term + '\\b', 'g')` in `text`:
occurrences of `term` whose neighbours (when present) are non-word characters.
`term` consists of word characters only at every call site (it has been
stripped with `replace(/[^\w]/g, '')`), so matches cannot overlap. -/
def countWordMatchesGo (term : List Char) (prev : Option Char) : List Char → ℕ
  | [] => 0
  | c :: rest =>
    let boundaryBefore : Bool :=
      match prev with
      | none => true
      | some p => !jsIsWordChar p
    let boundaryAfter : Bool :=
      match (c :: rest).drop term.length with
      | [] => true
      | d :: _ => !jsIsWordChar d
    let hit := isPfx term (c :: rest) && boundaryBefore && boundaryAfter
    (if hit then 1 else 0) + countWordMatchesGo term (some c) rest

/-- Word-boundary match count of `term` in `text` (JS `text.match(/\bterm\b/g)`). -/
def countWordMatches (term text : List Char) : ℕ :=
  countWordMatchesGo term none text

/-- Join character-list pieces with a single joining character (JS `arr.join(c)`). -/
def joinWith (c : Char) : List (List Char) → List Char
  | [] => []
  | [x] => x
  | x :: t => x ++ c :: joinWith c t

/-- First-occurrence-order deduplication (JS `Set` insertion semantics). -/
def firstDedupGo {α : Type} [DecidableEq α] (seen : List α) : List α → List α
  | [] => []
  | a :: t => if a ∈ seen then firstDedupGo seen t else a :: firstDedupGo (a :: seen) t

def firstDedup {α : Type} [DecidableEq α] (l : List α) : List α := firstDedupGo [] l

/-- Association-list lookup; JS `Map.get` for the caches modelled below
(insertion at the head together with first-match lookup realises `Map.set`
overwrite semantics). -/
def lookupList {κ α : Type} [DecidableEq κ] : List (κ × α) → κ → Option α
  | [], _ => none
  | (k, v) :: t, key => if k = key then some v else lookupList t key

/-! ## SearchIntent data model

The `SearchIntent` shape is declared in `intentDetection.ts`, which is not part
of the source snapshot; its fields are reproduced from the spec's data-model
section (they are also consumed verbatim by `orchestrator.ts` and the
configuration resolver, both of which are in the snapshot). -/

inductive Strategy
  | quickAnswer | research | comparison | tutorial | news | reference | creative
deriving DecidableEq

inductive Complexity
  | simple | medium | complex
deriving DecidableEq

inductive Temporal
  | current | historical | trending | timeless
deriving DecidableEq

inductive MediaImportance
  | low | medium | high
deriving DecidableEq

inductive SearchDepth
  | shallow | medium | deep
deriving DecidableEq

structure ContentPreferences where
  needsImages : Bool
  needsVideos : Bool
  mediaImportance : MediaImportance
  visualLearning : Bool
deriving DecidableEq

structure IntentConfidence where
  strategy : ℚ
  complexity : ℚ
  temporal : ℚ
  contentPreferences : ℚ
deriving DecidableEq

structure Recommendations where
  searchQueries : ℕ
  searchDepth : SearchDepth
  parallelization : Bool
  earlyTermination : Bool
  relevanceThreshold : ℚ
  timeoutMultiplier : ℚ
deriving DecidableEq

structure SearchIntent where
  strategy : Strategy
  complexity : Complexity
  temporal : Temporal
  contentPreferences : ContentPreferences
  confidence : IntentConfidence
  reasoning : String
  recommendations : Recommendations
deriving DecidableEq

/-! ## Intent Detector (modelled from the spec)

`intentDetection.ts` is absent from `src/`; only its callers are present.
Everything in this section carries the spec's wording: §4.1 (keyword tables
per strategy/temporal dimension, word-count thresholds for complexity, keyword
presence for media needs, confidence defaults 0.5–0.7, clamped numeric
recommendations) pinned by concrete Scenarios A and B of §8. -/

def clampNat (lo hi x : ℕ) : ℕ := max lo (min hi x)

def clampQ (lo hi x : ℚ) : ℚ := max lo (min hi x)

/-- Number of non-empty whitespace-separated words of a query. -/
def queryWordCount (query : String) : ℕ :=
  ((jsSplitWs (lowerChars query)).filter (fun w => w ≠ [])).length

def anyKeyword (lq : List Char) (kws : List String) : Bool :=
  kws.any (fun k => containsSub k.data lq)

/-- Modelled from the spec: the heuristic strategy keyword table of the
missing `intentDetection.ts` (spec §4.1, "keyword tables per strategy"),
pinned by Scenario A ("What is quantum computing" → quickAnswer) and
Scenario B ("how to bake chocolate cake" → tutorial). -/
def heuristicStrategy (lq : List Char) : Strategy :=
  if anyKeyword lq ["how to", "tutorial", "step by step"] then .tutorial
  else if anyKeyword lq ["versus", " vs ", "compare", "difference"] then .comparison
  else if anyKeyword lq ["news", "breaking", "headline"] then .news
  else if anyKeyword lq ["research", "study", "analysis"] then .research
  else if anyKeyword lq ["what is", "who is", "define", "definition", "meaning"] then .quickAnswer
  else if anyKeyword lq ["specification", "documentation", "reference"] then .reference
  else if anyKeyword lq ["creative", "ideas", "inspiration", "brainstorm"] then .creative
  else .quickAnswer

/-- Modelled from the spec: word-count thresholds for complexity (§4.1). -/
def heuristicComplexity (wc : ℕ) : Complexity :=
  if wc ≤ 7 then .simple else if wc ≤ 15 then .medium else .complex

/-- Modelled from the spec: the temporal keyword table (§4.1). -/
def heuristicTemporal (lq : List Char) : Temporal :=
  if anyKeyword lq ["latest", "today", "current", "breaking", "news"] then .current
  else if anyKeyword lq ["history", "historical", "origin of"] then .historical
  else if anyKeyword lq ["trending", "popular now"] then .trending
  else .timeless

/-- Modelled from the spec: keyword presence for media needs (§4.1), pinned by
Scenario A (quickAnswer query → no media, importance low) and Scenario B
(tutorial query → `visualLearning = true`, importance high). -/
def heuristicContentPreferences (strategy : Strategy) (lq : List Char) : ContentPreferences :=
  let visualKw := anyKeyword lq ["image", "photo", "picture", "diagram", "visual"]
  let videoKw := anyKeyword lq ["video", "watch", "youtube"]
  let visualLearning := decide (strategy = .tutorial) || visualKw
  let needsImages := visualKw || visualLearning
  let needsVideos := videoKw || decide (strategy = .tutorial)
  let mediaImportance :=
    if visualLearning then MediaImportance.high
    else if needsImages || needsVideos then MediaImportance.medium
    else MediaImportance.low
  ⟨needsImages, needsVideos, mediaImportance, visualLearning⟩

/-- Modelled from the spec: heuristic tuning recommendations, every numeric
field clamped to its documented range (§4.1, §3). -/
def heuristicRecommendations (strategy : Strategy) (complexity : Complexity) :
    Recommendations where
  searchQueries :=
    clampNat 1 6 (match complexity with | .simple => 2 | .medium => 3 | .complex => 5)
  searchDepth :=
    match complexity with | .simple => .shallow | .medium => .medium | .complex => .deep
  parallelization := decide (complexity ≠ .simple)
  earlyTermination := decide (complexity = .simple)
  relevanceThreshold :=
    clampQ 0.2 0.8
      (match strategy with
        | .quickAnswer => 0.6 | .research => 0.25 | .news => 0.4
        | .comparison => 0.35 | _ => 0.5)
  timeoutMultiplier := clampQ 0.5 2.0 1

/-- Modelled from the spec: the deterministic keyword-heuristic classifier of
the missing `intentDetection.ts` (§4.1), with the lower default confidence. -/
def heuristicClassify (query : String) : SearchIntent :=
  let lq := lowerChars query
  let strategy := heuristicStrategy lq
  let complexity := heuristicComplexity (queryWordCount query)
  { strategy := strategy
    complexity := complexity
    temporal := heuristicTemporal lq
    contentPreferences := heuristicContentPreferences strategy lq
    confidence := ⟨0.6, 0.6, 0.6, 0.6⟩
    reasoning := "heuristic keyword classification"
    recommendations := heuristicRecommendations strategy complexity }

/-- Modelled from the spec: the parse-boundary clamping applied to
LLM-produced intents ("all numeric recommendation fields are clamped to
documented ranges regardless of source"). -/
def clampIntent (i : SearchIntent) : SearchIntent :=
  { i with
      recommendations :=
        { i.recommendations with
            searchQueries := clampNat 1 6 i.recommendations.searchQueries
            relevanceThreshold := clampQ 0.2 0.8 i.recommendations.relevanceThreshold
            timeoutMultiplier := clampQ 0.5 2.0 i.recommendations.timeoutMultiplier } }

/-- JS emptiness test `!query || query.trim().length === 0`. -/
def isBlankQuery (query : String) : Bool := decide (jsTrim query.data = [])

/-- Modelled from the spec: `detectIntent` of the missing `intentDetection.ts`.
The single chat-model call is an oracle `llmOut` (`none` = unparsable model
output).  The returned `Bool` records whether the chat model was invoked.
Empty/whitespace queries take the immediate heuristic path without touching
the oracle; LLM parse failure also falls back to the heuristic classifier. -/
def detectIntent (llmOut : Option SearchIntent) (query : String) :
    SearchIntent × Bool :=
  if isBlankQuery query then (heuristicClassify query, false)
  else
    match llmOut with
    | some i => (clampIntent i, true)
    | none => (heuristicClassify query, true)

/-! ## Neural Reranker (`neuralReranker.ts`, class `NeuralReranker`)

The semantic sub-scores are an input vector `sems` standing for
`computeSimilarity(embedQuery(query), embedQuery(doc.pageContent))` per
document; `computeSimilarity.ts` is absent from the snapshot and is, per the
spec (§4.3 step 1), cosine similarity, so any vector with entries in `[-1, 1]`
is realisable (a provider that returns one fixed non-zero embedding for every
text realises the constant vector `1`). -/

/-- The fields of a LangChain `Document` consulted by the reranker:
`pageContent`, `metadata.title` (missing title = `''`), `metadata.url`. -/
structure SrcDoc where
  pageContent : String
  title : String
  url : String
deriving DecidableEq, Inhabited

structure RerankingConfig where
  minRelevanceThreshold : ℚ
  semanticWeight : ℚ
  keywordWeight : ℚ
  qualityWeight : ℚ
  freshnessWeight : ℚ
  diversityWeight : ℚ
  adaptiveScoring : Bool
deriving DecidableEq

/-- Constructor defaults of `NeuralReranker` (no overrides). -/
def defaultRerankingConfig : RerankingConfig :=
  { minRelevanceThreshold := 0.3
    semanticWeight := 0.5
    keywordWeight := 0.3
    qualityWeight := 0.1
    freshnessWeight := 0.05
    diversityWeight := 0.05
    adaptiveScoring := true }

/-- `query.toLowerCase().split(/\s+/).filter(t => t.length > 2).map(t =>
t.replace(/[^\w]/g, ''))` from `calculateKeywordRelevance`. -/
def queryTermsOf (query : String) : List (List Char) :=
  (((jsSplitWs (lowerChars query)).filter (fun t => 2 < t.length)).map
    (fun t => t.filter jsIsWordChar))

/-- Per-document body of `calculateKeywordRelevance`.  When `queryTerms` is
empty the JS coverage factor is `0/0 = NaN`; the `ℚ` idealisation makes it
`0`.  No claim below depends on that corner. -/
def keywordScoreOfDoc (queryTerms : List (List Char)) (doc : SrcDoc) : ℚ :=
  let content := lowerChars doc.pageContent
  let title := lowerChars doc.title
  let raw : ℚ := queryTerms.foldl
    (fun acc term =>
      let contentMatches := countWordMatches term content
      let titleMatches := countWordMatches term title
      let acc :=
        if 0 < contentMatches ∨ 0 < titleMatches then
          acc + (titleMatches : ℚ) * 0.4 + ((min contentMatches 5 : ℕ) : ℚ) * 0.1
        else acc
      if 4 < term.length then
        acc + (if containsSub term content then 0.05 else 0)
            + (if containsSub term title then 0.2 else 0)
      else acc)
    0
  let matched := (queryTerms.filter
    (fun t => 0 < countWordMatches t content ∨ 0 < countWordMatches t title)).dedup
  let termCoverage : ℚ := (matched.length : ℚ) / (queryTerms.length : ℚ)
  min (raw * (0.5 + termCoverage)) 1

def calculateKeywordRelevance (query : String) (docs : List SrcDoc) : List ℚ :=
  docs.map (keywordScoreOfDoc (queryTermsOf query))

/-- Per-document body of `calculateContentQuality`. -/
def qualityScoreOfDoc (doc : SrcDoc) : ℚ :=
  let content := doc.pageContent.data
  let lengthBonus : ℚ :=
    if 100 < content.length ∧ content.length < 10000 then
      min 0.4 ((content.length : ℚ) / 2500)
    else 0
  let sentences := (jsSplitOn jsIsSentenceSep content).filter
    (fun s => 15 < (jsTrim s).length)
  let avgSentenceLength : ℚ :=
    if 0 < sentences.length then (content.length : ℚ) / (sentences.length : ℚ) else 0
  let structureBonus : ℚ :=
    if 2 < sentences.length ∧ 20 < avgSentenceLength ∧ avgSentenceLength < 200 then 0.3
    else 0
  let words := (jsSplitWs content).length
  let uniqueWords := ((jsSplitWs (content.map Char.toLower)).dedup).length
  let lexicalDiversity : ℚ := if 0 < words then (uniqueWords : ℚ) / (words : ℚ) else 0
  let diversityBonus : ℚ :=
    if 0.3 < lexicalDiversity ∧ lexicalDiversity < 0.9 then 0.2 else 0
  let titleBonus : ℚ :=
    if 10 < doc.title.data.length ∧ doc.title.data.length < 200 then 0.1 else 0
  min (lengthBonus + structureBonus + diversityBonus + titleBonus) 1

def calculateContentQuality (docs : List SrcDoc) : List ℚ :=
  docs.map qualityScoreOfDoc

/-- The `freshTerms` table of `calculateContentFreshness`. -/
def freshTerms : List String :=
  ["latest", "recent", "new", "updated", "current", "today", "now"]

/-- Per-document body of `calculateContentFreshness`; `currentYear` stands for
`new Date().getFullYear()`. -/
def freshnessScoreOfDoc (currentYear : ℕ) (doc : SrcDoc) : ℚ :=
  let content := lowerChars doc.pageContent
  let yearBoost : ℚ :=
    if containsSub (toString currentYear).data content then 0.4
    else if containsSub (toString (currentYear - 1)).data content then 0.2
    else if containsSub (toString (currentYear - 2)).data content then 0.1
    else 0
  let termBoost : ℚ := freshTerms.foldl
    (fun acc t => if containsSub t.data content then acc + 0.05 else acc) 0
  min (0.3 + yearBoost + termBoost) 1

def calculateContentFreshness (currentYear : ℕ) (docs : List SrcDoc) : List ℚ :=
  docs.map (freshnessScoreOfDoc currentYear)

/-- `calculateDiversityPenalties`: a first pass counts each document's domain
over the whole set, then penalties are assigned per count. -/
def calculateDiversityPenalties (domainOf : String → String) (docs : List SrcDoc) :
    List ℚ :=
  docs.map (fun d =>
    let domainCount := docs.countP (fun e => decide (domainOf e.url = domainOf d.url))
    if 3 < domainCount then 0.1 else if 1 < domainCount then 0.05 else 0)

def timeIndicators : List String := ["latest", "recent", "new", "2024", "2025", "current"]

def technicalIndicators : List String := ["how", "what", "why", "explain", "guide", "tutorial"]

/-- `calculateAdaptiveWeights` (its `documents` argument is unused in the
source body and is omitted). -/
def calculateAdaptiveWeights (cfg : RerankingConfig) (query : String) :
    RerankingConfig :=
  let lq := lowerChars query
  let queryLength := (jsSplitWs lq).length
  let s0 := cfg.semanticWeight
  let k0 := cfg.keywordWeight
  let q0 := cfg.qualityWeight
  let f0 := cfg.freshnessWeight
  let d0 := cfg.diversityWeight
  let k1 := if queryLength ≤ 3 then k0 + 0.1 else k0
  let s1 := if queryLength ≤ 3 then s0 - 0.05 else s0
  let s2 := if 6 < queryLength then s1 + 0.1 else s1
  let k2 := if 6 < queryLength then k1 - 0.05 else k1
  let timeHit := timeIndicators.any (fun t => containsSub t.data lq)
  let f1 := if timeHit then f0 + 0.1 else f0
  let q1 := if timeHit then q0 - 0.05 else q0
  let techHit := technicalIndicators.any (fun t => containsSub t.data lq)
  let q2 := if techHit then q1 + 0.1 else q1
  let d1 := if techHit then d0 - 0.02 else d0
  { cfg with
      semanticWeight := max 0.1 s2
      keywordWeight := max 0.1 k2
      qualityWeight := max 0 q2
      freshnessWeight := max 0 f1
      diversityWeight := max 0 d1 }

/-- One element of the `relevanceScores` array of `rerankDocuments`. -/
structure ScoreEntry where
  index : ℕ
  score : ℚ
  semanticScore : ℚ
  keywordScore : ℚ
  qualityScore : ℚ
  freshnessScore : ℚ
  diversityPenalty : ℚ
deriving DecidableEq

/-- The scored entries of `rerankDocuments` before sorting: final score =
weighted signal combination, floored at 0 (`Math.max(0, finalScore)`). -/
def relevanceEntries (cfg : RerankingConfig) (currentYear : ℕ)
    (domainOf : String → String) (query : String) (docs : List SrcDoc)
    (sems : List ℚ) : List ScoreEntry :=
  let keywordScores := calculateKeywordRelevance query docs
  let qualityScores := calculateContentQuality docs
  let freshnessScores := calculateContentFreshness currentYear docs
  let diversityPenalties := calculateDiversityPenalties domainOf docs
  let w := if cfg.adaptiveScoring then calculateAdaptiveWeights cfg query else cfg
  (List.range docs.length).map (fun i =>
    let sem := sems.getD i 0
    let kw := keywordScores.getD i 0
    let qu := qualityScores.getD i 0
    let fr := freshnessScores.getD i 0
    let dp := diversityPenalties.getD i 0
    let finalScore :=
      sem * w.semanticWeight + kw * w.keywordWeight + qu * w.qualityWeight
        + fr * w.freshnessWeight - dp * w.diversityWeight
    { index := i
      score := max 0 finalScore
      semanticScore := sem
      keywordScore := kw
      qualityScore := qu
      freshnessScore := fr
      diversityPenalty := dp })

/-- The comparator `(a, b) => b.score - a.score` as a sorting relation. -/
def scoreDescending (a b : ScoreEntry) : Bool := decide (b.score ≤ a.score)

/-- The `RerankedDocument` output shape: the spread document plus
`relevanceScore`, `originalRank`, and the scoring-breakdown metadata. -/
structure RerankedDocument where
  doc : SrcDoc
  relevanceScore : ℚ
  originalRank : ℕ
  semanticScore : ℚ
  keywordScore : ℚ
  qualityScore : ℚ
  freshnessScore : ℚ
  diversityPenalty : ℚ
  rank : ℕ
  totalCandidates : ℕ
deriving DecidableEq

/-- The final `relevantDocuments.map((scoreData, rank) => …)` of
`rerankDocuments`. -/
def annotateRanked (docs : List SrcDoc) (total : ℕ) : ℕ → List ScoreEntry →
    List RerankedDocument
  | _, [] => []
  | r, e :: t =>
    { doc := docs.getD e.index default
      relevanceScore := e.score
      originalRank := e.index
      semanticScore := e.semanticScore
      keywordScore := e.keywordScore
      qualityScore := e.qualityScore
      freshnessScore := e.freshnessScore
      diversityPenalty := e.diversityPenalty
      rank := r + 1
      totalCandidates := total } :: annotateRanked docs total (r + 1) t

/-- The `relevanceScores` array after the in-place descending sort. -/
def sortedEntries (cfg : RerankingConfig) (currentYear : ℕ)
    (domainOf : String → String) (query : String) (docs : List SrcDoc)
    (sems : List ℚ) : List ScoreEntry :=
  (relevanceEntries cfg currentYear domainOf query docs sems).mergeSort scoreDescending

/-- The mean candidate score (`avgScore`); the `ℚ` convention `x / 0 = 0`
is never hit on the code's path since `rerankDocuments` returns early for
empty inputs. -/
def avgScoreOf (cfg : RerankingConfig) (currentYear : ℕ)
    (domainOf : String → String) (query : String) (docs : List SrcDoc)
    (sems : List ℚ) : ℚ :=
  let sorted := sortedEntries cfg currentYear domainOf query docs sems
  (sorted.map (fun e => e.score)).sum / (sorted.length : ℚ)

/-- `dynamicThreshold = Math.min(minRelevanceThreshold, avgScore * 0.5)`. -/
def dynamicThresholdOf (cfg : RerankingConfig) (currentYear : ℕ)
    (domainOf : String → String) (query : String) (docs : List SrcDoc)
    (sems : List ℚ) : ℚ :=
  min cfg.minRelevanceThreshold
    (avgScoreOf cfg currentYear domainOf query docs sems * 0.5)

/-- `NeuralReranker.rerankDocuments`.  The mean score and dynamic threshold
are computed once here; the source recomputes the identical values inside the
filter callback for every element of the already-sorted array. -/
def rerankDocuments (cfg : RerankingConfig) (currentYear : ℕ)
    (domainOf : String → String) (query : String) (docs : List SrcDoc)
    (sems : List ℚ) : List RerankedDocument :=
  if docs.length = 0 then []
  else
    annotateRanked docs docs.length 0
      ((sortedEntries cfg currentYear domainOf query docs sems).filter
        (fun e => decide (dynamicThresholdOf cfg currentYear domainOf query docs sems ≤ e.score)))

/-! ## Mode Configuration Resolver (`config.ts`, `getSearchConfig`) -/

inductive Mode
  | quick | pro | ultra
deriving DecidableEq

structure TimeoutConfig where
  queryTimeout : ℤ
  searchTimeout : ℤ
  rerankTimeout : ℤ
  responseTimeout : ℤ
  totalTimeout : ℤ
deriving DecidableEq

structure SearchFanoutConfig where
  maxQueries : ℕ
  parallelSearches : Bool
  batchSize : ℤ
deriving DecidableEq

structure StreamingConfig where
  enableStreaming : Bool
  minSourcesForResponse : ℕ
  maxResponseDelay : ℕ
  progressiveEnhancement : Bool
  earlyTermination : Bool
  parallelProcessing : Bool
deriving DecidableEq

structure FusionConfig where
  maxChunkSize : ℕ
  overlapSize : ℕ
  maxChunks : ℕ
  semanticGrouping : Bool
  deduplication : Bool
  skipEnhancement : Bool
  batchSize : ℕ
  enableParallelProcessing : Bool
deriving DecidableEq

structure OrchestratorConfig where
  mode : Mode
  maxSources : ℕ
  maxImages : ℕ
  maxVideos : ℕ
  timeoutConfig : TimeoutConfig
  searchConfig : SearchFanoutConfig
  streamingConfig : StreamingConfig
  rerankingConfig : RerankingConfig
  fusionConfig : FusionConfig
deriving DecidableEq

def getDefaultRelevanceThreshold (mode : Mode) (intent : Option SearchIntent) : ℚ :=
  match intent with
  | some i =>
    if i.strategy = .quickAnswer then 0.6
    else if i.strategy = .research then 0.25
    else if i.strategy = .news then 0.4
    else if i.strategy = .comparison then 0.35
    else (match mode with | .quick => 0.5 | .pro => 0.4 | .ultra => 0.3)
  | none => (match mode with | .quick => 0.5 | .pro => 0.4 | .ultra => 0.3)

def getFreshnessWeight (intent : Option SearchIntent) : ℚ :=
  match intent with
  | some i =>
    if i.temporal = .current then 0.2
    else if i.temporal = .trending then 0.15
    else if i.strategy = .news then 0.25
    else 0.05
  | none => 0.05

def getDiversityWeight (intent : Option SearchIntent) : ℚ :=
  match intent with
  | some i =>
    if i.strategy = .research then 0.15
    else if i.strategy = .comparison then 0.12
    else if i.complexity = .complex then 0.1
    else 0.05
  | none => 0.05

def getDefaultSearchQueries (mode : Mode) : ℕ :=
  match mode with | .quick => 3 | .pro => 4 | .ultra => 5

/-- `Math.floor(base * factor)` for the ℕ-valued config sizes. -/
def floorScaled (base : ℕ) (factor : ℚ) : ℕ := (((base : ℚ) * factor).floor).toNat

def getBatchSize (depth : SearchDepth) (mode : Mode) : ℤ :=
  let baseSize : ℕ := match mode with | .quick => 20 | .pro => 25 | .ultra => 30
  match depth with
  | .shallow => ((baseSize : ℚ) * 0.8).floor
  | .deep => ((baseSize : ℚ) * 1.3).floor
  | .medium => (baseSize : ℤ)

def getChunkSize (depth : SearchDepth) (mode : Mode) : ℕ :=
  let baseSize : ℕ := match mode with | .quick => 600 | .pro => 800 | .ultra => 1000
  match depth with
  | .shallow => floorScaled baseSize 0.7
  | .deep => floorScaled baseSize 1.4
  | .medium => baseSize

def getMaxChunks (depth : SearchDepth) (mode : Mode) : ℕ :=
  let baseChunks : ℕ := match mode with | .quick => 4 | .pro => 6 | .ultra => 8
  match depth with
  | .shallow => max (baseChunks - 1) 2
  | .deep => baseChunks + 2
  | .medium => baseChunks

/-- `Math.floor(ms * intentTimeoutMultiplier)`. -/
def scaledTimeout (ms : ℕ) (multiplier : ℚ) : ℤ := ((ms : ℚ) * multiplier).floor

/-- The `baseConfig.rerankingConfig` of `getSearchConfig`. -/
def baseRerankingConfig (mode : Mode) (intent : Option SearchIntent) : RerankingConfig :=
  { minRelevanceThreshold :=
      match intent with
      | some i => i.recommendations.relevanceThreshold
      | none => getDefaultRelevanceThreshold mode none
    semanticWeight := 0.5
    keywordWeight := 0.3
    qualityWeight := 0.1
    freshnessWeight := getFreshnessWeight intent
    diversityWeight := getDiversityWeight intent
    adaptiveScoring := true }

/-- `getSearchConfig` from `config.ts`. -/
def getSearchConfig (mode : Mode) (intent : Option SearchIntent) : OrchestratorConfig :=
  let intentTimeoutMultiplier : ℚ :=
    match intent with | some i => i.recommendations.timeoutMultiplier | none => 1
  let intentSearchQueries : ℕ :=
    match intent with
    | some i => i.recommendations.searchQueries
    | none => getDefaultSearchQueries mode
  let intentSearchDepth : SearchDepth :=
    match intent with | some i => i.recommendations.searchDepth | none => .medium
  let intentParallel : Bool :=
    match intent with | some i => i.recommendations.parallelization | none => true
  match mode with
  | .quick =>
    { mode := .quick
      maxSources := 200
      maxImages := 200
      maxVideos := 200
      timeoutConfig :=
        { queryTimeout := scaledTimeout 500 intentTimeoutMultiplier
          searchTimeout := scaledTimeout 3000 intentTimeoutMultiplier
          rerankTimeout := scaledTimeout 1200 intentTimeoutMultiplier
          responseTimeout := scaledTimeout 8000 intentTimeoutMultiplier
          totalTimeout := scaledTimeout 15000 intentTimeoutMultiplier }
      searchConfig :=
        { maxQueries := intentSearchQueries
          parallelSearches := intentParallel
          batchSize := getBatchSize intentSearchDepth .quick }
      streamingConfig :=
        { enableStreaming := true
          minSourcesForResponse := 5
          maxResponseDelay := 100
          progressiveEnhancement := true
          earlyTermination := false
          parallelProcessing := true }
      rerankingConfig := baseRerankingConfig .quick intent
      fusionConfig :=
        { maxChunkSize := getChunkSize intentSearchDepth .quick
          overlapSize := 80
          maxChunks := getMaxChunks intentSearchDepth .quick
          semanticGrouping := true
          deduplication := true
          skipEnhancement := true
          batchSize := 3
          enableParallelProcessing := false } }
  | .pro =>
    { mode := .pro
      maxSources := 300
      maxImages := 300
      maxVideos := 300
      timeoutConfig :=
        { queryTimeout := scaledTimeout 800 intentTimeoutMultiplier
          searchTimeout := scaledTimeout 4500 intentTimeoutMultiplier
          rerankTimeout := scaledTimeout 2000 intentTimeoutMultiplier
          responseTimeout := scaledTimeout 10000 intentTimeoutMultiplier
          totalTimeout := scaledTimeout 18000 intentTimeoutMultiplier }
      searchConfig :=
        { maxQueries := intentSearchQueries
          parallelSearches := intentParallel
          batchSize := getBatchSize intentSearchDepth .pro }
      streamingConfig :=
        { enableStreaming := true
          minSourcesForResponse := 8
          maxResponseDelay := 150
          progressiveEnhancement := true
          earlyTermination := false
          parallelProcessing := true }
      rerankingConfig := baseRerankingConfig .pro intent
      fusionConfig :=
        { maxChunkSize := getChunkSize intentSearchDepth .pro
          overlapSize := 120
          maxChunks := getMaxChunks intentSearchDepth .pro
          semanticGrouping := true
          deduplication := true
          skipEnhancement := false
          batchSize := 4
          enableParallelProcessing := true } }
  | .ultra =>
    { mode := .ultra
      maxSources := 500
      maxImages := 400
      maxVideos := 400
      timeoutConfig :=
        { queryTimeout := scaledTimeout 1200 intentTimeoutMultiplier
          searchTimeout := scaledTimeout 6000 intentTimeoutMultiplier
          rerankTimeout := scaledTimeout 3500 intentTimeoutMultiplier
          responseTimeout := scaledTimeout 12000 intentTimeoutMultiplier
          totalTimeout := scaledTimeout 25000 intentTimeoutMultiplier }
      searchConfig :=
        { maxQueries := min (intentSearchQueries + 1) 8
          parallelSearches := intentParallel
          batchSize := getBatchSize intentSearchDepth .ultra }
      streamingConfig :=
        { enableStreaming := true
          minSourcesForResponse := 10
          maxResponseDelay := 200
          progressiveEnhancement := true
          earlyTermination := true
          parallelProcessing := true }
      rerankingConfig := baseRerankingConfig .ultra intent
      fusionConfig :=
        { maxChunkSize := getChunkSize intentSearchDepth .ultra
          overlapSize := 200
          maxChunks := getMaxChunks intentSearchDepth .ultra
          semanticGrouping := true
          deduplication := true
          skipEnhancement := false
          batchSize := 3
          enableParallelProcessing := true } }

/-! ## Context Fusion Engine (`contextualFusion.ts`, class `ContextualFusion`)

The instance caches (`chunkCache`, `groupingCache`) are threaded explicitly as
`FusionState`.  The batch-enhancement chat model is a deterministic oracle
`llm : String → String`; per-batch timing metadata (`enhancementTime`) is
omitted.  Progress reports are returned as the list of percentages passed to
the `progressCallback`. -/

/-- The fields of a `RerankedDocument` consulted by the fusion engine. -/
structure FusionDoc where
  pageContent : String
  title : String
  url : String
  relevanceScore : ℚ
deriving DecidableEq, Inhabited

/-- The metadata fields `createOverlappingChunksOptimized` and the enhancement
step attach to a chunk (the spread of the document's own metadata is carried
by the chunk's `sources`). -/
structure ChunkMeta where
  documentIndex : ℕ
  chunkIndex : ℕ
  wordCount : ℕ
  charCount : ℕ
  enhanced : Bool
  batchIndex : ℕ
deriving DecidableEq

structure ContextChunk where
  id : String
  content : String
  sources : List String
  relevanceScore : ℚ
  metadata : ChunkMeta
deriving DecidableEq

/-- The two module caches of `ContextualFusion`.  The chunk cache key is
`query-docCount-JSON.stringify(config)` in the source; since the count is the
only numeric segment and the JSON starts with a brace, that string determines
and is determined by the triple modelled here. -/
structure FusionState where
  chunkCache : List ((String × ℕ × FusionConfig) × List ContextChunk)
  groupingCache : List (String × List FusionDoc)
deriving DecidableEq

def emptyFusionState : FusionState := ⟨[], []⟩

/-- `title.toLowerCase().split(' ').slice(0, 3).join(' ')`. -/
def firstThreeTitleWords (title : String) : List Char :=
  joinWith ' ' ((jsSplitChar ' ' (lowerChars title)).take 3)

/-- The `${domain}-${titleWords}` grouping key of `fastGroupDocuments`. -/
def groupKeyOf (domainOf : String → String) (d : FusionDoc) : List Char :=
  (domainOf d.url).data ++ '-' :: firstThreeTitleWords d.title

/-- `fastGroupDocuments`: group by (domain, first-3-title-words) in first
occurrence order, keep each group's highest-relevance document (first of the
maxima, as the source's stable descending sort does), then sort the
representatives by descending relevance. -/
def fastGroupDocuments (domainOf : String → String) (docs : List FusionDoc) :
    List FusionDoc :=
  let keys := docs.map (groupKeyOf domainOf)
  let bests := (firstDedup keys).filterMap (fun k =>
    match docs.filter (fun d => decide (groupKeyOf domainOf d = k)) with
    | [] => none
    | d :: t =>
      some (t.foldl (fun best e =>
        if best.relevanceScore < e.relevanceScore then e else best) d))
  bests.mergeSort (fun a b => decide (b.relevanceScore ≤ a.relevanceScore))

/-- One chunk as pushed by `createOverlappingChunksOptimized`. -/
def mkChunk (doc : FusionDoc) (docIndex i chunkStep cid : ℕ)
    (chunkWords : List (List Char)) : ContextChunk :=
  let contentChars := joinWith ' ' chunkWords
  { id := "chunk_" ++ toString cid
    content := ⟨contentChars⟩
    sources := [if doc.url = "" then "doc_" ++ toString docIndex else doc.url]
    relevanceScore := doc.relevanceScore
    metadata :=
      { documentIndex := docIndex
        chunkIndex := i / chunkStep
        wordCount := chunkWords.length
        charCount := contentChars.length
        enhanced := false
        batchIndex := 0 } }

/-- The loop start indices `0, step, 2·step, …` below `total`. -/
def chunkStartIndices (total step : ℕ) : List ℕ :=
  (List.range ((total + step - 1) / step)).map (fun j => j * step)

/-- Inner chunking loop of `createOverlappingChunksOptimized` for one
document; carries the global `(chunks, nextChunkId)` state and stops (the
source's `break`) once `maxChunks * 2` chunks exist — the check runs after
each iteration whether or not a chunk was pushed. -/
def chunkLoop (cfg : FusionConfig) (chunkStep : ℕ) (doc : FusionDoc)
    (docIndex : ℕ) (words : List (List Char)) :
    List ℕ → List ContextChunk × ℕ → List ContextChunk × ℕ
  | [], st => st
  | i :: rest, (chunks, cid) =>
    let chunkWords := (words.drop i).take cfg.maxChunkSize
    let contentChars := joinWith ' ' chunkWords
    let pushed := 100 ≤ contentChars.length
    let chunks' :=
      if pushed then chunks ++ [mkChunk doc docIndex i chunkStep cid chunkWords]
      else chunks
    let cid' := if pushed then cid + 1 else cid
    if cfg.maxChunks * 2 ≤ chunks'.length then (chunks', cid')
    else chunkLoop cfg chunkStep doc docIndex words rest (chunks', cid')

/-- Per-document body of `createOverlappingChunksOptimized`: skip documents
under 100 characters or under 50 words, else chunk with the overlap step. -/
def chunkOneDoc (cfg : FusionConfig) (chunkStep : ℕ) (doc : FusionDoc)
    (docIndex : ℕ) (st : List ContextChunk × ℕ) : List ContextChunk × ℕ :=
  let content := doc.pageContent.data
  if content.length < 100 then st
  else
    let words := jsSplitWs content
    if words.length < 50 then st
    else chunkLoop cfg chunkStep doc docIndex words
      (chunkStartIndices words.length chunkStep) st

def chunkDocsGo (cfg : FusionConfig) (chunkStep : ℕ) :
    List FusionDoc → ℕ → List ContextChunk × ℕ → List ContextChunk × ℕ
  | [], _, st => st
  | d :: t, i, st => chunkDocsGo cfg chunkStep t (i + 1) (chunkOneDoc cfg chunkStep d i st)

/-- `createOverlappingChunksOptimized`; note the `break` only leaves the inner
word loop, so later documents may still each contribute chunks. -/
def createOverlappingChunksOptimized (cfg : FusionConfig) (docs : List FusionDoc) :
    List ContextChunk :=
  let chunkStep := max 1 (cfg.maxChunkSize - cfg.overlapSize)
  (chunkDocsGo cfg chunkStep docs 0 ([], 0)).1

/-- `chunk.content.toLowerCase().replace(/\s+/g, ' ').trim()`. -/
def normalizeContent (s : String) : List Char :=
  joinWith ' ' ((jsSplitWs (lowerChars s)).filter (fun w => w ≠ []))

def dedupChunksGo (seen : List (List Char)) : List ContextChunk → List ContextChunk
  | [] => []
  | c :: t =>
    let n := normalizeContent c.content
    if n ∈ seen then dedupChunksGo seen t else c :: dedupChunksGo (n :: seen) t

/-- `deduplicateChunks`: drop chunks whose normalised content was already seen. -/
def deduplicateChunks (chunks : List ContextChunk) : List ContextChunk :=
  dedupChunksGo [] chunks

/-- The `createBatches` helper (callers guarantee a positive batch size; the
fuel makes the recursion structural). -/
def createBatchesGo {α : Type} (size : ℕ) : ℕ → List α → List (List α)
  | 0, _ => []
  | _, [] => []
  | fuel + 1, l => l.take size :: createBatchesGo size fuel (l.drop size)

def createBatches {α : Type} (size : ℕ) (l : List α) : List (List α) :=
  createBatchesGo size l.length l

def mapWithIndexGo {α β : Type} (f : ℕ → α → β) : ℕ → List α → List β
  | _, [] => []
  | i, a :: t => f i a :: mapWithIndexGo f (i + 1) t

def mapWithIndex {α β : Type} (f : ℕ → α → β) (l : List α) : List β :=
  mapWithIndexGo f 0 l

/-- The `Chunk ${i + 1}:\n${chunk.content}\n` pieces joined with newlines. -/
def chunkBatchText (batch : List ContextChunk) : String :=
  ⟨joinWith '\n' (mapWithIndex (fun i c =>
    ("Chunk " ++ toString (i + 1) ++ ":\n").data ++ c.content.data ++ ['\n']) batch)⟩

/-- The batched-enhancement prompt with the query and chunk text substituted
(whitespace layout of the template literal is immaterial to the oracle). -/
def enhancementPrompt (query chunksText : String) : String :=
  "Enhance the following context chunks to better answer the query.\n"
    ++ "For each chunk, add relevant context, clarify ambiguous information, and ensure coherence.\n"
    ++ "Keep each enhanced chunk concise and focused.\n"
    ++ "Return the enhanced chunks in the same order, separated by \"---CHUNK_SEPARATOR---\"\n\n"
    ++ "Query: " ++ query ++ "\n\nChunks to enhance:\n" ++ chunksText
    ++ "\n\nReturn only the enhanced content for each chunk, separated by ---CHUNK_SEPARATOR---, no other text."

/-- Split off the text before the first occurrence of `sep` (with the rest),
or `none` when `sep` does not occur. -/
def breakOnSub (sep : List Char) : List Char → Option (List Char × List Char)
  | [] => if isPfx sep [] then some ([], []) else none
  | c :: t =>
    if isPfx sep (c :: t) then some ([], (c :: t).drop sep.length)
    else
      match breakOnSub sep t with
      | some (pre, post) => some (c :: pre, post)
      | none => none

def splitOnSubGo (sep : List Char) : ℕ → List Char → List (List Char)
  | 0, l => [l]
  | fuel + 1, l =>
    match breakOnSub sep l with
    | none => [l]
    | some (pre, post) => pre :: splitOnSubGo sep fuel post

/-- JS `str.split(sep)` for a non-empty literal separator. -/
def splitOnSub (sep l : List Char) : List (List Char) :=
  splitOnSubGo sep (l.length + 1) l

/-- `processSingleBatch`: one oracle call for the whole batch, split the reply
on the sentinel separator, trim, drop empties, and fall back to each chunk's
original content when the reply has too few pieces. -/
def processSingleBatch (llm : String → String) (query : String)
    (batch : List ContextChunk) (batchIndex : ℕ) : List ContextChunk :=
  let chunksText := chunkBatchText batch
  let enhancedContent := llm (enhancementPrompt query chunksText)
  let parts := ((splitOnSub ("---CHUNK_SEPARATOR---".data) enhancedContent.data).map
    jsTrim).filter (fun p => p ≠ [])
  mapWithIndex (fun i c =>
    let newContent : String :=
      match parts.get? i with
      | some p => ⟨p⟩
      | none => c.content
    { c with
        content := newContent
        metadata := { c.metadata with enhanced := true, batchIndex := batchIndex } })
    batch

/-- `enhanceChunksWithContextBatched`: the enhanced chunks (identical in both
the sequential and the bounded-concurrency path, which differ only in
grouping) and the progress percentages reported (per concurrent group of ≤ 2
batches when parallel, per batch otherwise). -/
def enhanceChunksWithContextBatched (cfg : FusionConfig) (llm : String → String)
    (query : String) (chunks : List ContextChunk) :
    List ContextChunk × List ℚ :=
  if chunks.length = 0 then ([], [])
  else
    let batchSize := if cfg.batchSize = 0 then 3 else cfg.batchSize
    let batches := createBatches batchSize chunks
    let enhanced :=
      (mapWithIndex (fun i b => processSingleBatch llm query b i) batches).flatten
    let reports : List ℚ :=
      if cfg.enableParallelProcessing ∧ 1 < batches.length then
        let concurrentGroups := createBatches 2 batches
        (List.range concurrentGroups.length).map
          (fun i => 80 + 20 * ((i : ℚ) + 1) / (concurrentGroups.length : ℚ))
      else
        (List.range batches.length).map
          (fun i => 80 + 20 * ((i : ℚ) + 1) / (batches.length : ℚ))
    (enhanced, reports)

/-- The cache-miss body of `createContextChunks` (everything between the cache
check and the final cache write): cap to `maxChunks * 3` top documents, the
optional grouping step with its own cache, chunking, deduplication,
truncation, and conditional enhancement.  Returns the chunks, the updated
grouping cache, and the full progress-report list. -/
def computeChunksCore (cfg : FusionConfig) (llm : String → String)
    (domainOf : String → String) (query : String) (docs : List FusionDoc)
    (gcache : List (String × List FusionDoc)) :
    List ContextChunk × List (String × List FusionDoc) × List ℚ :=
  let maxDocs := min docs.length (cfg.maxChunks * 3)
  let topDocs := docs.take maxDocs
  let groupedResult :=
    if cfg.semanticGrouping ∧ 5 < topDocs.length then
      let groupKey : String :=
        ⟨"group-".data ++ joinWith '-' (topDocs.map (fun d => d.url.data))⟩
      match lookupList gcache groupKey with
      | some g => (g, gcache)
      | none =>
        let g := fastGroupDocuments domainOf topDocs
        (g, (groupKey, g) :: gcache)
    else (topDocs, gcache)
  let chunks := createOverlappingChunksOptimized cfg groupedResult.1
  let dedupChunks := if cfg.deduplication then deduplicateChunks chunks else chunks
  let finalChunks := dedupChunks.take cfg.maxChunks
  let enhancedResult :=
    if cfg.skipEnhancement then (finalChunks, ([100] : List ℚ))
    else enhanceChunksWithContextBatched cfg llm query finalChunks
  (enhancedResult.1, groupedResult.2,
    ([10, 20, 40, 60, 70, 80] : List ℚ) ++ enhancedResult.2 ++ [100])

structure FusionOutput where
  chunks : List ContextChunk
  state : FusionState
  fromCache : Bool
  reports : List ℚ
deriving DecidableEq

/-- `ContextualFusion.createContextChunks`: empty input short-circuits to `[]`
without touching the caches; otherwise the chunk cache keyed by
(query, document count, config) is consulted (a hit reports `100` and
recomputes nothing), and on a miss the computed chunks are cached before
being returned. -/
def createContextChunks (cfg : FusionConfig) (llm : String → String)
    (domainOf : String → String) (st : FusionState) (query : String)
    (docs : List FusionDoc) : FusionOutput :=
  if docs.length = 0 then ⟨[], st, false, []⟩
  else
    let cacheKey : String × ℕ × FusionConfig := (query, docs.length, cfg)
    match lookupList st.chunkCache cacheKey with
    | some cached => ⟨cached, st, true, [100]⟩
    | none =>
      let core := computeChunksCore cfg llm domainOf query docs st.groupingCache
      ⟨core.1, ⟨(cacheKey, core.1) :: st.chunkCache, core.2.1⟩, false, core.2.2⟩

/-! ## Search Orchestrator pipeline state machine (`orchestrator.ts`)

`executeSearchInternal` is embedded as a control-flow machine over the five
`PipelineStage` records.  Data flow through the stages is driven by an
environment oracle `Behavior`:

* `callbackThrows` — the caller-supplied `progressCallback` throws on every
  invocation.  The first callback call is `emitPipelineStatus()` right after
  the stage reset, before any `updatePipelineStage`; the resulting exception
  is caught by the top-level catch, which finds no running stage and then
  itself re-invokes the throwing callback via `emitProgress`, so the
  exception escapes `executeSearch` with an empty transition trace.
* `detectIntentThrows` — the Intent Detector call rejects; `stageQ`'s own
  catch marks Q `error` and returns the hard-coded fallback intent, and the
  pipeline proceeds.
* `intentNeedsImages` / `intentNeedsVideos` — the content preferences of the
  oracle intent returned on the successful Q path (with `mediaImportance`
  low and `visualLearning` false); they select Stage S's conditional media
  branches exactly as `searchIntent.contentPreferences` does in the source.
* `stageSUnexpectedThrow`, `stageDUnexpectedThrow` — an unanticipated
  exception (the spec's pipeline-fatal category (f), e.g. a programming
  error) raised in the stage body, reaching the top-level catch.  Stage S's
  and D's collaborator calls are individually try/caught in the source, so
  these flags model precisely the "unexpected exception" case the top-level
  catch exists for.
* `retrievalEmpty` — document retrieval yields no documents (every search
  backend call failed or returned nothing); Stage R and E short-circuit.
* `embeddingsThrow` — `embeddings.embedQuery` rejects inside
  `neuralReranker.rerankDocuments`; nothing catches it below the top level.
* `fusionThrows` — `contextualFusion.createContextChunks` rejects after its
  20%-progress report; the orchestrator's private `createContextChunks`
  wrapper catches this and substitutes `[]`, so Stage E still completes.

The fusion progress reports follow the skip-enhancement path
`[10,20,40,60,70,80,100,100]` of the embedded engine; the enhancement path
differs only in values between 80 and 100, all remapped into (78, 95].
`trackAsync` (performance wrapper, absent from the snapshot) is transparent
to results per the spec's scope.  Timestamps are omitted. -/

inductive StageId
  | Q | S | R | E | D
deriving DecidableEq

inductive StageStatus
  | pending | running | completed | error
deriving DecidableEq

structure TraceEvent where
  stage : StageId
  status : StageStatus
  progress : ℚ
deriving DecidableEq

structure StagesState where
  q : StageStatus
  s : StageStatus
  r : StageStatus
  e : StageStatus
  d : StageStatus
deriving DecidableEq

def initStages : StagesState := ⟨.pending, .pending, .pending, .pending, .pending⟩

def statusOf (st : StagesState) : StageId → StageStatus
  | .Q => st.q
  | .S => st.s
  | .R => st.r
  | .E => st.e
  | .D => st.d

def setStatus (st : StagesState) : StageId → StageStatus → StagesState
  | .Q, x => { st with q := x }
  | .S, x => { st with s := x }
  | .R, x => { st with r := x }
  | .E, x => { st with e := x }
  | .D, x => { st with d := x }

structure PipeState where
  stages : StagesState
  trace : List TraceEvent
deriving DecidableEq

def initPipeState : PipeState := ⟨initStages, []⟩

/-- `updatePipelineStage`: mutate the stage record and append the transition
to the observable trace. -/
def upd (ps : PipeState) (g : StageId) (x : StageStatus) (p : ℚ) : PipeState :=
  ⟨setStatus ps.stages g x, ps.trace ++ [⟨g, x, p⟩]⟩

structure Behavior where
  callbackThrows : Bool
  detectIntentThrows : Bool
  intentNeedsImages : Bool
  intentNeedsVideos : Bool
  stageSUnexpectedThrow : Bool
  retrievalEmpty : Bool
  embeddingsThrow : Bool
  fusionThrows : Bool
  stageDUnexpectedThrow : Bool
deriving DecidableEq

/-- Flat model of the returned `SearchResult` shape: the answer text, whether
the three media arrays are empty, the returned intent, and `success`. -/
structure SearchResultModel where
  message : String
  sourcesEmpty : Bool
  imagesEmpty : Bool
  videosEmpty : Bool
  searchIntent : SearchIntent
  success : Bool
deriving DecidableEq

/-- The hard-coded fallback `searchIntent` of the top-level catch of
`executeSearchInternal` (the legacy compatibility duplicates are not part of
the modelled shape). -/
def errorFallbackIntent : SearchIntent :=
  { strategy := .quickAnswer
    complexity := .simple
    temporal := .timeless
    contentPreferences :=
      { needsImages := false, needsVideos := false
        mediaImportance := .low, visualLearning := false }
    confidence := ⟨0, 0, 0, 0⟩
    reasoning := "Error occurred during search execution"
    recommendations :=
      { searchQueries := 1, searchDepth := .shallow, parallelization := false
        earlyTermination := true, relevanceThreshold := 0.5, timeoutMultiplier := 1 } }

/-- The hard-coded fallback intent of `stageQ_QueryUnderstanding`'s own catch
(`needsImages := true`, `mediaImportance := medium`). -/
def stageQFallbackIntent : SearchIntent :=
  { strategy := .quickAnswer
    complexity := .simple
    temporal := .timeless
    contentPreferences :=
      { needsImages := true, needsVideos := false
        mediaImportance := .medium, visualLearning := false }
    confidence := ⟨0.5, 0.5, 0.5, 0.5⟩
    reasoning := "Fallback intent due to detection error"
    recommendations :=
      { searchQueries := 3, searchDepth := .medium, parallelization := true
        earlyTermination := true, relevanceThreshold := 0.4, timeoutMultiplier := 1 } }

/-- A representative family of Intent Detector outputs on the successful Q
path, exposing the two content-preference bits Stage S branches on. -/
def oracleIntent (b : Behavior) : SearchIntent :=
  { strategy := .quickAnswer
    complexity := .simple
    temporal := .timeless
    contentPreferences :=
      { needsImages := b.intentNeedsImages, needsVideos := b.intentNeedsVideos
        mediaImportance := .low, visualLearning := false }
    confidence := ⟨0.8, 0.8, 0.8, 0.8⟩
    reasoning := "oracle"
    recommendations :=
      { searchQueries := 3, searchDepth := .medium, parallelization := true
        earlyTermination := false, relevanceThreshold := 0.4, timeoutMultiplier := 1 } }

/-- Stage S's image branch condition
`needsImages || mediaImportance !== 'low'`. -/
def imagesBranch (i : SearchIntent) : Bool :=
  i.contentPreferences.needsImages
    || decide (i.contentPreferences.mediaImportance ≠ .low)

/-- Stage S's video branch condition `needsVideos || visualLearning`. -/
def videosBranch (i : SearchIntent) : Bool :=
  i.contentPreferences.needsVideos || i.contentPreferences.visualLearning

/-- The error-shaped `SearchResult` of the top-level catch. -/
def errorResultModel (msg : String) : SearchResultModel :=
  { message := "Error: " ++ msg
    sourcesEmpty := true
    imagesEmpty := true
    videosEmpty := true
    searchIntent := errorFallbackIntent
    success := false }

/-- `pipelineStages.find(s => s.status === 'running')` in array order. -/
def firstRunningStage (st : StagesState) : Option StageId :=
  if st.q = .running then some .Q
  else if st.s = .running then some .S
  else if st.r = .running then some .R
  else if st.e = .running then some .E
  else if st.d = .running then some .D
  else none

/-- The top-level catch of `executeSearchInternal`: mark the running stage
`error` and convert to an error-shaped result. -/
def topCatch (ps : PipeState) (msg : String) :
    PipeState × Except Unit SearchResultModel :=
  let ps' :=
    match firstRunningStage ps.stages with
    | some g => upd ps g .error 0
    | none => ps
  (ps', Except.ok (errorResultModel msg))

/-- The fusion progress reports observed by Stage E's remapping callback. -/
def fusionReportsModel (b : Behavior) : List ℚ :=
  if b.fusionThrows then [10, 20] else [10, 20, 40, 60, 70, 80, 100, 100]

/-- `stageD_Delivery`. -/
def runStageD (b : Behavior) (ps : PipeState) (hasChunks : Bool)
    (intent : SearchIntent) : PipeState × Except Unit SearchResultModel :=
  let ps := upd ps .D .running 10
  let ps := upd ps .D .running 30
  if b.stageDUnexpectedThrow then topCatch ps "Unknown error occurred"
  else
    let ps := if hasChunks then upd ps .D .running 60 else ps
    let ps := upd ps .D .running 90
    let ps := upd ps .D .completed 100
    (ps, Except.ok
      { message := "answer"
        sourcesEmpty := b.retrievalEmpty
        imagesEmpty := !imagesBranch intent
        videosEmpty := !videosBranch intent
        searchIntent := intent
        success := true })

/-- `stageE_Extraction`, with the Context Fusion Engine's reports remapped by
`10 + progress * 0.85`; a fusion rejection is caught by the orchestrator's
wrapper (chunks become `[]`) and the stage still completes. -/
def runStageE (b : Behavior) (ps : PipeState) (hasRanked : Bool)
    (intent : SearchIntent) : PipeState × Except Unit SearchResultModel :=
  let ps := upd ps .E .running 10
  if !hasRanked then
    let ps := upd ps .E .completed 100
    runStageD b ps false intent
  else
    let ps := upd ps .E .running 20
    let ps := (fusionReportsModel b).foldl
      (fun acc pr => upd acc .E .running (10 + pr * 0.85)) ps
    let ps := upd ps .E .completed 100
    runStageD b ps (!b.fusionThrows) intent

/-- `stageR_Ranking`: empty input short-circuits to completed; otherwise an
uncaught `embedQuery` rejection reaches the top-level catch. -/
def runStageR (b : Behavior) (ps : PipeState) (intent : SearchIntent) :
    PipeState × Except Unit SearchResultModel :=
  let ps := upd ps .R .running 10
  if b.retrievalEmpty then
    let ps := upd ps .R .completed 100
    runStageE b ps false intent
  else
    let ps := upd ps .R .running 50
    if b.embeddingsThrow then topCatch ps "embedQuery failed"
    else
      let ps := upd ps .R .completed 100
      runStageE b ps true intent

/-- `stageS_Search` with its conditional media-branch progress updates. -/
def runStageS (b : Behavior) (ps : PipeState) (intent : SearchIntent) :
    PipeState × Except Unit SearchResultModel :=
  let ps := upd ps .S .running 10
  let ps := upd ps .S .running 20
  let ps := if imagesBranch intent then upd ps .S .running 35 else ps
  let ps := if videosBranch intent then upd ps .S .running 50 else ps
  let ps := upd ps .S .running 70
  if b.stageSUnexpectedThrow then topCatch ps "Unknown error occurred"
  else
    let ps := upd ps .S .running 90
    let ps := upd ps .S .completed 100
    runStageR b ps intent

/-- `stageQ_QueryUnderstanding`: an Intent Detector rejection is caught inside
the stage, which marks Q `error` and nevertheless returns the fallback intent
to the caller, so the pipeline continues with Stage S. -/
def runStageQ (b : Behavior) (ps : PipeState) :
    PipeState × Except Unit SearchResultModel :=
  let ps := upd ps .Q .running 10
  let ps := upd ps .Q .running 30
  if b.detectIntentThrows then
    let ps := upd ps .Q .error 0
    runStageS b ps stageQFallbackIntent
  else
    let ps := upd ps .Q .running 70
    let ps := upd ps .Q .completed 100
    runStageS b ps (oracleIntent b)

/-- `executeSearch` / `executeSearchInternal`.  `Except.error ()` means an
exception escaped to the caller. -/
def executeSearchModel (b : Behavior) : PipeState × Except Unit SearchResultModel :=
  if b.callbackThrows then (initPipeState, Except.error ())
  else runStageQ b initPipeState

def execTrace (b : Behavior) : List TraceEvent := (executeSearchModel b).1.trace

def execOutcome (b : Behavior) : Except Unit SearchResultModel :=
  (executeSearchModel b).2

/-! ### Trace predicates -/

/-- Every transition into `error` happens while the stage is `running`. -/
def errorFromRunningGo (st : StagesState) : List TraceEvent → Bool
  | [] => true
  | ev :: rest =>
    (!(decide (ev.status = .error)) || decide (statusOf st ev.stage = .running))
      && errorFromRunningGo (setStatus st ev.stage ev.status) rest

def errorOnlyFromRunning (tr : List TraceEvent) : Bool :=
  errorFromRunningGo initStages tr

/-- No transition of any kind occurs after a transition into `error`. -/
def noEventAfterError : List TraceEvent → Bool
  | [] => true
  | ev :: rest => if ev.status = .error then rest.isEmpty else noEventAfterError rest

/-- Every `error` transition of a stage other than Q is the last transition. -/
def nonQErrorIsLast : List TraceEvent → Bool
  | [] => true
  | ev :: rest =>
    if ev.status = .error ∧ ev.stage ≠ .Q then rest.isEmpty
    else nonQErrorIsLast rest

/-- The progress values recorded for stage `g` while it is `running`, in
order. -/
def runningProgress (g : StageId) (tr : List TraceEvent) : List ℚ :=
  (tr.filter (fun ev => decide (ev.stage = g) && decide (ev.status = .running))).map
    (fun ev => ev.progress)

/-- Monotone non-decrease of a progress sequence. -/
def isNonDecreasing : List ℚ → Bool
  | [] => true
  | [_] => true
  | a :: b :: t => decide (a ≤ b) && isNonDecreasing (b :: t)

/-- `"Error: "` is a prefix of the message. -/
def messageHasErrorTag (s : String) : Bool := decide (s.data.take 7 = "Error: ".data)

/-- The error envelope of C5: an `ok` result that is unsuccessful carries the
`Error:`-prefixed message, empty media arrays, and the fallback intent. -/
def errorEnvelopeOk : Except Unit SearchResultModel → Bool
  | .error _ => false
  | .ok res =>
    res.success
      || (messageHasErrorTag res.message && res.sourcesEmpty && res.imagesEmpty
            && res.videosEmpty && decide (res.searchIntent = errorFallbackIntent))

/-- Enumeration of all behaviors (2⁹ combinations). -/
def allBools : List Bool := [false, true]

def allBehaviors : List Behavior :=
  allBools.flatMap (fun c1 => allBools.flatMap (fun c2 => allBools.flatMap (fun c3 =>
    allBools.flatMap (fun c4 => allBools.flatMap (fun c5 => allBools.flatMap (fun c6 =>
      allBools.flatMap (fun c7 => allBools.flatMap (fun c8 => allBools.map (fun c9 =>
        ⟨c1, c2, c3, c4, c5, c6, c7, c8, c9⟩)))))))))

/-! ## Streaming Controller (`streaming.ts`, class `SearchStreamController`) -/

inductive StreamEventType
  | stageComplete | sourcesReady | imagesReady | videosReady | responseChunk
  | responseComplete | searchComplete | searchError | pipelineProgress
  | stageProgress
deriving DecidableEq

/-- The operations a producer or the consumer can perform on the controller.
`streamProgress`, `streamStageProgress` and `streamResponseChunk` are
`streamData` wrappers in the source and are covered by `streamData`. -/
inductive StreamOp
  | streamData (e : StreamEventType)
  | complete
  | error
  | close
  | cancel
deriving DecidableEq

/-- Controller state: the `closed` flag, whether `this.controller` is still
set (consumer cancellation nulls it), the events enqueued into the underlying
`ReadableStream`, and how many times the underlying controller was terminated
(`controller.close()` or `controller.error(...)`). -/
structure StreamState where
  closed : Bool
  hasController : Bool
  enqueued : List StreamEventType
  termCount : ℕ
deriving DecidableEq

def streamInit : StreamState := ⟨false, true, [], 0⟩

/-- `isClosed()`. -/
def isClosedFlag (s : StreamState) : Bool := s.closed

/-- `streamData`: silently dropped once closed or after cancellation. -/
def doStreamData (s : StreamState) (e : StreamEventType) : StreamState :=
  if s.closed || !s.hasController then s
  else { s with enqueued := s.enqueued ++ [e] }

/-- One controller operation (`complete` and `error` first attempt to stream
their terminal event, then close/error the underlying controller if still
open; `cancel` is the consumer cancelling the `ReadableStream`). -/
def applyStreamOp (s : StreamState) : StreamOp → StreamState
  | .streamData e => doStreamData s e
  | .complete =>
    let s := doStreamData s .searchComplete
    if s.hasController && !s.closed then
      { s with closed := true, termCount := s.termCount + 1 }
    else s
  | .error =>
    let s := doStreamData s .searchError
    if s.hasController && !s.closed then
      { s with closed := true, termCount := s.termCount + 1 }
    else s
  | .close =>
    if s.hasController && !s.closed then
      { s with closed := true, termCount := s.termCount + 1 }
    else s
  | .cancel => { s with closed := true, hasController := false }

def runStreamOps (s : StreamState) (ops : List StreamOp) : StreamState :=
  ops.foldl applyStreamOp s

/-! # Theorems -/

/-! ## Helper lemmas -/

theorem getD_mem_of_lt {α : Type} (l : List α) (i : ℕ) (d : α) (h : i < l.length) :
    l.getD i d ∈ l := by
  induction l generalizing i with
  | nil => simp at h
  | cons a t ih =>
    cases i with
    | zero => simp
    | succ n =>
      simp only [List.getD_cons_succ]
      exact List.mem_cons_of_mem a (ih n (by simpa using h))

theorem mem_relevanceEntries_index {cfg : RerankingConfig} {currentYear : ℕ}
    {domainOf : String → String} {query : String} {docs : List SrcDoc}
    {sems : List ℚ} {e : ScoreEntry}
    (he : e ∈ relevanceEntries cfg currentYear domainOf query docs sems) :
    e.index < docs.length := by
  simp only [relevanceEntries, List.mem_map, List.mem_range] at he
  obtain ⟨i, hi, rfl⟩ := he
  simpa using hi

theorem mem_relevanceEntries_nonneg {cfg : RerankingConfig} {currentYear : ℕ}
    {domainOf : String → String} {query : String} {docs : List SrcDoc}
    {sems : List ℚ} {e : ScoreEntry}
    (he : e ∈ relevanceEntries cfg currentYear domainOf query docs sems) :
    0 ≤ e.score := by
  simp only [relevanceEntries, List.mem_map, List.mem_range] at he
  obtain ⟨i, hi, rfl⟩ := he
  exact le_max_left 0 _

theorem scoreDescending_trans (a b c : ScoreEntry) (hab : scoreDescending a b = true)
    (hbc : scoreDescending b c = true) : scoreDescending a c = true := by
  simp only [scoreDescending, decide_eq_true_eq] at *
  exact le_trans hbc hab

theorem scoreDescending_total (a b : ScoreEntry) :
    (scoreDescending a b || scoreDescending b a) = true := by
  simp only [scoreDescending, Bool.or_eq_true, decide_eq_true_eq]
  exact le_total b.score a.score

theorem pairwise_sortedEntries (cfg : RerankingConfig) (currentYear : ℕ)
    (domainOf : String → String) (query : String) (docs : List SrcDoc)
    (sems : List ℚ) :
    List.Pairwise (fun a b : ScoreEntry => b.score ≤ a.score)
      (sortedEntries cfg currentYear domainOf query docs sems) := by
  have h := @List.sorted_mergeSort ScoreEntry scoreDescending scoreDescending_trans
    scoreDescending_total (relevanceEntries cfg currentYear domainOf query docs sems)
  exact h.imp (by intro a b hab; simpa [scoreDescending] using hab)

theorem mem_sortedEntries_iff {cfg : RerankingConfig} {currentYear : ℕ}
    {domainOf : String → String} {query : String} {docs : List SrcDoc}
    {sems : List ℚ} {e : ScoreEntry} :
    e ∈ sortedEntries cfg currentYear domainOf query docs sems ↔
      e ∈ relevanceEntries cfg currentYear domainOf query docs sems :=
  (List.mergeSort_perm _ scoreDescending).mem_iff

theorem length_annotateRanked (docs : List SrcDoc) (total : ℕ) :
    ∀ (r : ℕ) (l : List ScoreEntry), (annotateRanked docs total r l).length = l.length := by
  intro r l
  induction l generalizing r with
  | nil => simp [annotateRanked]
  | cons e t ih => simp [annotateRanked, ih]

theorem mem_annotateRanked {docs : List SrcDoc} {total : ℕ} :
    ∀ {r : ℕ} {l : List ScoreEntry} {x : RerankedDocument},
      x ∈ annotateRanked docs total r l →
      ∃ e ∈ l, x.relevanceScore = e.score ∧ x.doc = docs.getD e.index default := by
  intro r l
  induction l generalizing r with
  | nil => intro x hx; simp [annotateRanked] at hx
  | cons e t ih =>
    intro x hx
    simp only [annotateRanked, List.mem_cons] at hx
    rcases hx with rfl | hx
    · exact ⟨e, List.mem_cons_self e t, rfl, rfl⟩
    · obtain ⟨e', he', h1, h2⟩ := ih hx
      exact ⟨e', List.mem_cons_of_mem e he', h1, h2⟩

theorem pairwise_annotateRanked {docs : List SrcDoc} {total : ℕ} :
    ∀ {r : ℕ} {l : List ScoreEntry},
      List.Pairwise (fun a b : ScoreEntry => b.score ≤ a.score) l →
      List.Pairwise (fun a b : RerankedDocument => b.relevanceScore ≤ a.relevanceScore)
        (annotateRanked docs total r l) := by
  intro r l
  induction l generalizing r with
  | nil => intro _; simp [annotateRanked]
  | cons e t ih =>
    intro hp
    rcases List.pairwise_cons.mp hp with ⟨hhead, htail⟩
    refine List.pairwise_cons.mpr ⟨?_, ih htail⟩
    intro y hy
    obtain ⟨e', he', h1, _⟩ := mem_annotateRanked hy
    simpa [h1] using hhead e' he'

/-! ## C2 — `rerankDocuments` output shape -/

/-- C2 (amended): for every configuration, year, domain extractor, query,
document list and semantic-score vector, `rerankDocuments` returns documents
drawn from the input list, sorted in descending order of `relevanceScore`,
with every score non-negative.  (The claimed upper bound `relevanceScore ≤ 1`
is false on the code; see the counterexample.) -/
theorem rerank_subset_sorted_nonneg (cfg : RerankingConfig) (currentYear : ℕ)
    (domainOf : String → String) (query : String) (docs : List SrcDoc)
    (sems : List ℚ) :
    List.Pairwise (fun a b : RerankedDocument => b.relevanceScore ≤ a.relevanceScore)
      (rerankDocuments cfg currentYear domainOf query docs sems) ∧
    ∀ r ∈ rerankDocuments cfg currentYear domainOf query docs sems,
      0 ≤ r.relevanceScore ∧ r.doc ∈ docs := by
  unfold rerankDocuments
  by_cases h0 : docs.length = 0
  · simp [h0]
  · rw [if_neg h0]
    constructor
    · exact pairwise_annotateRanked
        (List.Pairwise.filter _ (pairwise_sortedEntries cfg currentYear domainOf query docs sems))
    · intro r hr
      obtain ⟨e, he, hscore, hdoc⟩ := mem_annotateRanked hr
      have he' : e ∈ relevanceEntries cfg currentYear domainOf query docs sems :=
        mem_sortedEntries_iff.mp (List.mem_of_mem_filter he)
      refine ⟨by rw [hscore]; exact mem_relevanceEntries_nonneg he', ?_⟩
      rw [hdoc]
      exact getD_mem_of_lt docs e.index default (mem_relevanceEntries_index he')

/-- C2 counterexample to the claimed bound `relevanceScore ∈ [0, 1]`: under
the constructor-default configuration with adaptive scoring, the two-word
query "how latest" (which triggers the short-query, time-sensitive and
technical weight boosts simultaneously, for a weight total of 1.15) applied
to a document with full keyword and freshness signal and a semantic score of
1 yields `relevanceScore = 209/200 > 1`. -/
def scenarioDoc : SrcDoc :=
  { pageContent := "how latest how latest how latest how latest how latest recent new updated current today now 2026"
    title := "how latest how latest"
    url := "https://example.com/a" }

theorem rerank_score_exceeds_one :
    (rerankDocuments defaultRerankingConfig 2026 (fun _ => "unknown") "how latest"
        [scenarioDoc] [1]).map (fun r => r.relevanceScore) = [209/200] ∧
    ¬ ((209/200 : ℚ) ≤ 1) := by
  with_unfolding_all decide

/-! ## C1 — all-zero final scores -/

/-- C1 (amended): when every computed final relevance score is 0 on a
non-empty document set (and the configured minimum threshold is
non-negative, as every configuration in the repository is), the dynamic
threshold `min(minThreshold, 0.5 · mean)` collapses to 0 and the
`score >= threshold` filter admits **every** document: `rerankDocuments`
returns all documents, each with `relevanceScore = 0`, without error —
not the empty list the claim states. -/
theorem rerank_allZero_keepsAll (cfg : RerankingConfig) (currentYear : ℕ)
    (domainOf : String → String) (query : String) (docs : List SrcDoc)
    (sems : List ℚ) (hne : docs.length ≠ 0)
    (hthr : 0 ≤ cfg.minRelevanceThreshold)
    (hzero : ∀ e ∈ relevanceEntries cfg currentYear domainOf query docs sems,
      e.score = 0) :
    (rerankDocuments cfg currentYear domainOf query docs sems).length = docs.length ∧
    ∀ r ∈ rerankDocuments cfg currentYear domainOf query docs sems,
      r.relevanceScore = 0 := by
  have hzero' : ∀ e ∈ sortedEntries cfg currentYear domainOf query docs sems,
      e.score = 0 := fun e he => hzero e (mem_sortedEntries_iff.mp he)
  have havg : avgScoreOf cfg currentYear domainOf query docs sems = 0 := by
    have hsum : ((sortedEntries cfg currentYear domainOf query docs sems).map
        (fun e => e.score)).sum = 0 := by
      apply List.sum_eq_zero
      intro x hx
      obtain ⟨e, he, rfl⟩ := List.mem_map.mp hx
      exact hzero' e he
    unfold avgScoreOf
    simp only []
    rw [hsum]
    simp
  have hdyn : dynamicThresholdOf cfg currentYear domainOf query docs sems = 0 := by
    unfold dynamicThresholdOf
    rw [havg]
    simpa using min_eq_right hthr
  have hfilter : (sortedEntries cfg currentYear domainOf query docs sems).filter
      (fun e => decide (dynamicThresholdOf cfg currentYear domainOf query docs sems ≤ e.score)) =
      sortedEntries cfg currentYear domainOf query docs sems := by
    apply List.filter_eq_self.mpr
    intro e he
    rw [hdyn, hzero' e he]
    simp
  unfold rerankDocuments
  rw [if_neg hne, hfilter]
  constructor
  · rw [length_annotateRanked]
    have := (List.mergeSort_perm
      (relevanceEntries cfg currentYear domainOf query docs sems) scoreDescending).length_eq
    unfold sortedEntries
    rw [this]
    simp [relevanceEntries]
  · intro r hr
    obtain ⟨e, he, hscore, _⟩ := mem_annotateRanked hr
    rw [hscore]
    exact hzero' e he

/-- C1 counterexample: with the constructor-default configuration, query
"abc" and a two-character document whose semantic score is `-1/30` (cosine
similarity may be negative), the single final score is exactly 0, yet
`rerankDocuments` returns the document (score `0 ≥ threshold 0`) instead of
the empty list the claim requires. -/
def zeroDoc : SrcDoc := { pageContent := "zz", title := "", url := "" }

theorem rerank_allZero_counterexample :
    (∀ e ∈ relevanceEntries defaultRerankingConfig 2026 (fun _ => "unknown") "abc"
        [zeroDoc] [-(1/30)], e.score = 0) ∧
    rerankDocuments defaultRerankingConfig 2026 (fun _ => "unknown") "abc"
        [zeroDoc] [-(1/30)] ≠ [] := by
  with_unfolding_all decide

/-- Closed witness for `rerank_allZero_keepsAll` at the concrete all-zero
input. -/
theorem rerank_allZero_keepsAll_witness :
    ([zeroDoc].length ≠ 0) ∧ (0 ≤ defaultRerankingConfig.minRelevanceThreshold) ∧
    ((rerankDocuments defaultRerankingConfig 2026 (fun _ => "unknown") "abc"
        [zeroDoc] [-(1/30)]).length = [zeroDoc].length ∧
      ∀ r ∈ rerankDocuments defaultRerankingConfig 2026 (fun _ => "unknown") "abc"
        [zeroDoc] [-(1/30)], r.relevanceScore = 0) :=
  ⟨by decide, by with_unfolding_all decide,
    rerank_allZero_keepsAll defaultRerankingConfig 2026 (fun _ => "unknown") "abc"
      [zeroDoc] [-(1/30)] (by decide) (by with_unfolding_all decide)
      (by with_unfolding_all decide)⟩

/-! ## C9 — configuration resolver -/

/-- C9: without an intent, quick mode resolves to
`fusionConfig.skipEnhancement = true`, ultra mode to
`skipEnhancement = false`, and ultra's `maxChunkSize` (1000) is strictly
larger than quick's (600). -/
theorem getSearchConfig_quick_ultra_fusion :
    (getSearchConfig .quick none).fusionConfig.skipEnhancement = true ∧
    (getSearchConfig .ultra none).fusionConfig.skipEnhancement = false ∧
    (getSearchConfig .quick none).fusionConfig.maxChunkSize <
      (getSearchConfig .ultra none).fusionConfig.maxChunkSize := by
  with_unfolding_all decide

/-! ## C6 — heuristic classification of Scenario A -/

/-- C6: the heuristic intent classifier (modelled from the spec; the source
file is absent from the snapshot) maps "What is quantum computing" to
strategy `quickAnswer`, complexity `simple`, no image or video need, and
media importance `low`. -/
theorem heuristic_scenarioA :
    (heuristicClassify "What is quantum computing").strategy = Strategy.quickAnswer ∧
    (heuristicClassify "What is quantum computing").complexity = Complexity.simple ∧
    (heuristicClassify "What is quantum computing").contentPreferences.needsImages = false ∧
    (heuristicClassify "What is quantum computing").contentPreferences.needsVideos = false ∧
    (heuristicClassify "What is quantum computing").contentPreferences.mediaImportance
      = MediaImportance.low := by
  decide

/-! ## C7 — blank queries bypass the chat model -/

/-- C7: on an empty or whitespace-only query, `detectIntent` (modelled from
the spec; the source file is absent from the snapshot) returns the heuristic
classification and reports the chat model as not invoked, for every possible
chat-model oracle. -/
theorem detectIntent_blank_no_llm (llmOut : Option SearchIntent) (query : String)
    (h : isBlankQuery query = true) :
    detectIntent llmOut query = (heuristicClassify query, false) := by
  simp [detectIntent, h]

/-- Closed witness for `detectIntent_blank_no_llm` on the whitespace query
`"   "`. -/
theorem detectIntent_blank_no_llm_witness :
    isBlankQuery "   " = true ∧
    detectIntent none "   " = (heuristicClassify "   ", false) :=
  ⟨by decide, detectIntent_blank_no_llm none "   " (by decide)⟩

/-! ## C10 — stream controller closure is absorbing -/

theorem doStreamData_fields (s : StreamState) (e : StreamEventType) :
    (doStreamData s e).closed = s.closed ∧
    (doStreamData s e).hasController = s.hasController ∧
    (doStreamData s e).termCount = s.termCount := by
  unfold doStreamData
  split <;> simp

theorem applyStreamOp_of_closed (s : StreamState) (op : StreamOp)
    (h : s.closed = true) :
    (applyStreamOp s op).closed = true ∧
    (applyStreamOp s op).enqueued = s.enqueued ∧
    (applyStreamOp s op).termCount = s.termCount := by
  cases op <;> simp [applyStreamOp, doStreamData, h]

theorem runStreamOps_cons (s : StreamState) (op : StreamOp) (t : List StreamOp) :
    runStreamOps s (op :: t) = runStreamOps (applyStreamOp s op) t := rfl

theorem runStreamOps_of_closed (ops : List StreamOp) :
    ∀ (s : StreamState), s.closed = true →
      (runStreamOps s ops).closed = true ∧
      (runStreamOps s ops).enqueued = s.enqueued ∧
      (runStreamOps s ops).termCount = s.termCount := by
  induction ops with
  | nil => intro s h; exact ⟨h, rfl, rfl⟩
  | cons op t ih =>
    intro s h
    obtain ⟨h1, h2, h3⟩ := applyStreamOp_of_closed s op h
    obtain ⟨g1, g2, g3⟩ := ih (applyStreamOp s op) h1
    rw [runStreamOps_cons]
    exact ⟨g1, by rw [g2, h2], by rw [g3, h3]⟩

/-- The underlying `ReadableStream` controller is terminated at most once,
and never before the `closed` flag is set. -/
def streamInv (s : StreamState) : Prop :=
  s.termCount ≤ 1 ∧ (s.closed = false → s.termCount = 0)

theorem applyStreamOp_inv (s : StreamState) (op : StreamOp) (h : streamInv s) :
    streamInv (applyStreamOp s op) := by
  obtain ⟨closed, hasC, enq, tc⟩ := s
  obtain ⟨h1, h2⟩ := h
  simp only [streamInv] at *
  cases op <;> cases closed <;> cases hasC <;>
    simp_all [applyStreamOp, doStreamData]

theorem runStreamOps_inv (ops : List StreamOp) :
    ∀ (s : StreamState), streamInv s → streamInv (runStreamOps s ops) := by
  induction ops with
  | nil => intro s h; exact h
  | cons op t ih => intro s h; exact ih _ (applyStreamOp_inv s op h)

/-- C10: once the controller has been closed by any operation sequence
(`complete`, `error`, `close`, or consumer cancellation), every further
operation sequence enqueues nothing, `isClosed()` stays `true`, and the
underlying stream controller is closed or errored at most once over the
whole history. -/
theorem stream_controller_closed_absorbing (pre post : List StreamOp)
    (h : (runStreamOps streamInit pre).closed = true) :
    isClosedFlag (runStreamOps (runStreamOps streamInit pre) post) = true ∧
    (runStreamOps (runStreamOps streamInit pre) post).enqueued =
      (runStreamOps streamInit pre).enqueued ∧
    (runStreamOps (runStreamOps streamInit pre) post).termCount ≤ 1 := by
  obtain ⟨h1, h2, h3⟩ := runStreamOps_of_closed post (runStreamOps streamInit pre) h
  have hinv : streamInv (runStreamOps (runStreamOps streamInit pre) post) := by
    have : streamInv (runStreamOps streamInit (pre ++ post)) :=
      runStreamOps_inv (pre ++ post) streamInit ⟨by simp [streamInit], by simp [streamInit]⟩
    rwa [runStreamOps, List.foldl_append] at this
  exact ⟨h1, h2, hinv.1⟩

/-- Closed witness for `stream_controller_closed_absorbing`: after
`complete()`, a further `streamData`/`complete`/`error`/`close` sequence
changes nothing and terminates the underlying controller no further time. -/
theorem stream_controller_closed_absorbing_witness :
    (runStreamOps streamInit [StreamOp.complete]).closed = true ∧
    (isClosedFlag (runStreamOps (runStreamOps streamInit [StreamOp.complete])
        [StreamOp.streamData .responseChunk, StreamOp.complete, StreamOp.error,
          StreamOp.close]) = true ∧
      (runStreamOps (runStreamOps streamInit [StreamOp.complete])
        [StreamOp.streamData .responseChunk, StreamOp.complete, StreamOp.error,
          StreamOp.close]).enqueued =
        (runStreamOps streamInit [StreamOp.complete]).enqueued ∧
      (runStreamOps (runStreamOps streamInit [StreamOp.complete])
        [StreamOp.streamData .responseChunk, StreamOp.complete, StreamOp.error,
          StreamOp.close]).termCount ≤ 1) :=
  ⟨by decide,
    stream_controller_closed_absorbing [StreamOp.complete]
      [StreamOp.streamData .responseChunk, StreamOp.complete, StreamOp.error,
        StreamOp.close] (by decide)⟩

/-! ## Pipeline state machine: C3, C4, C5 -/

theorem mem_allBools (x : Bool) : x ∈ allBools := by
  cases x <;> simp [allBools]

theorem mem_allBehaviors (b : Behavior) : b ∈ allBehaviors := by
  obtain ⟨c1, c2, c3, c4, c5, c6, c7, c8, c9⟩ := b
  simp only [allBehaviors, List.mem_flatMap, List.mem_map]
  exact ⟨c1, mem_allBools _, c2, mem_allBools _, c3, mem_allBools _, c4, mem_allBools _,
    c5, mem_allBools _, c6, mem_allBools _, c7, mem_allBools _, c8, mem_allBools _,
    c9, mem_allBools _, rfl⟩

/-- The guarded Intent Detector failure: Q is marked `error` from `running`
by `stageQ_QueryUnderstanding`'s own catch, which then returns a fallback
intent so the pipeline keeps going. -/
def qFailBehavior : Behavior :=
  ⟨false, true, false, false, false, false, false, false, false⟩

/-- C3 counterexample: in the execution where the Intent Detector rejects,
stage Q enters `error` and stage transitions nevertheless continue (Stage S
starts), falsifying "once any stage has entered 'error' no subsequent stage
transition occurs". -/
theorem pipeline_continues_after_Q_error :
    noEventAfterError (execTrace qFailBehavior) = false ∧
    (⟨.Q, .error, 0⟩ : TraceEvent) ∈ execTrace qFailBehavior ∧
    (⟨.S, .running, 10⟩ : TraceEvent) ∈ execTrace qFailBehavior := by
  with_unfolding_all decide

/-- C3 (amended): in every modelled execution, a stage enters `error` only
from `running`, and an `error` on any stage other than Q is the final stage
transition of the execution.  (After Q's guarded failure the pipeline
continues with a fallback intent — see the counterexample.) -/
theorem pipeline_error_transition_discipline (b : Behavior) :
    errorOnlyFromRunning (execTrace b) = true ∧
    nonQErrorIsLast (execTrace b) = true := by
  have hall : (allBehaviors.all (fun x =>
      errorOnlyFromRunning (execTrace x) && nonQErrorIsLast (execTrace x))) = true := by
    with_unfolding_all decide
  have hb := List.all_eq_true.mp hall b (mem_allBehaviors b)
  rw [Bool.and_eq_true] at hb
  exact hb

/-- The fully successful execution with a non-empty document set. -/
def happyBehavior : Behavior :=
  ⟨false, false, false, false, false, false, false, false, false⟩

/-- C4 (code bug): on the ordinary successful path, the progress values
recorded for Stage E while `running` are `10, 20`, and then `18.5` — the
orchestrator writes 20 before delegating to the Context Fusion Engine, whose
first 10% report is remapped to `10 + 0.85 · 10 = 18.5 < 20`.  The recorded
sequence is therefore not monotonically non-decreasing, contradicting the
spec's stage-progress invariant. -/
theorem stageE_progress_regression :
    runningProgress .E (execTrace happyBehavior) =
      [10, 20, 37/2, 27, 44, 61, 139/2, 78, 95, 95] ∧
    isNonDecreasing (runningProgress .E (execTrace happyBehavior)) = false := by
  with_unfolding_all decide

/-- The execution whose caller-supplied progress callback always throws. -/
def callbackThrowBehavior : Behavior :=
  ⟨true, false, false, false, false, false, false, false, false⟩

/-- C5 counterexample: when the caller-supplied progress callback itself
throws, the top-level catch of `executeSearchInternal` re-invokes it via
`emitProgress`, and the second exception escapes `executeSearch` — so
`executeSearch` is not exception-free for every input. -/
theorem executeSearch_throws_on_throwing_callback :
    execOutcome callbackThrowBehavior = Except.error () := rfl

/-- C5 (amended): provided the progress callback does not throw,
`executeSearch` never propagates an exception, and whenever the returned
result is unsuccessful it carries the `Error: `-prefixed message, empty
sources/images/videos, and the populated fallback `searchIntent`. -/
theorem executeSearch_error_envelope (b : Behavior)
    (hcb : b.callbackThrows = false) :
    (execOutcome b).isOk = true ∧ errorEnvelopeOk (execOutcome b) = true := by
  have hall : (allBehaviors.all (fun x =>
      x.callbackThrows || ((execOutcome x).isOk && errorEnvelopeOk (execOutcome x)))) = true := by
    with_unfolding_all decide
  have hb := List.all_eq_true.mp hall b (mem_allBehaviors b)
  rw [hcb] at hb
  simpa [Bool.and_eq_true] using hb

/-- The execution whose Stage S body raises an unexpected exception. -/
def sFailBehavior : Behavior :=
  ⟨false, false, false, false, true, false, false, false, false⟩

/-- Closed witness for `executeSearch_error_envelope` at the Stage-S-failure
execution. -/
theorem executeSearch_error_envelope_witness :
    sFailBehavior.callbackThrows = false ∧
    ((execOutcome sFailBehavior).isOk = true ∧
      errorEnvelopeOk (execOutcome sFailBehavior) = true) :=
  ⟨rfl, executeSearch_error_envelope sFailBehavior rfl⟩

/-! ## C8 — fusion cache idempotence -/

theorem lookupList_head {κ α : Type} [DecidableEq κ] (k : κ) (v : α)
    (t : List (κ × α)) : lookupList ((k, v) :: t) k = some v := by
  simp [lookupList]

/-- C8 (amended): two consecutive `createContextChunks` calls with identical
query, documents and configuration (with `skipEnhancement = true`) return
structurally identical chunk lists, and for a non-empty document list the
second call is served from the chunk cache.  (The empty document list
short-circuits before the cache — see the counterexample.) -/
theorem fusion_cache_idempotent (cfg : FusionConfig) (llm : String → String)
    (domainOf : String → String) (st : FusionState) (query : String)
    (docs : List FusionDoc) (_hskip : cfg.skipEnhancement = true) :
    (createContextChunks cfg llm domainOf
        (createContextChunks cfg llm domainOf st query docs).state query docs).chunks =
      (createContextChunks cfg llm domainOf st query docs).chunks ∧
    (docs.length ≠ 0 →
      (createContextChunks cfg llm domainOf
        (createContextChunks cfg llm domainOf st query docs).state query docs).fromCache
        = true) := by
  by_cases hd : docs.length = 0
  · simp [createContextChunks, hd]
  · cases hl : lookupList st.chunkCache (query, docs.length, cfg) with
    | some cached => simp [createContextChunks, hd, hl]
    | none => simp [createContextChunks, hd, hl, lookupList_head]

def witnessFusionConfig : FusionConfig :=
  { maxChunkSize := 600, overlapSize := 80, maxChunks := 4
    semanticGrouping := true, deduplication := true, skipEnhancement := true
    batchSize := 3, enableParallelProcessing := false }

def witnessFusionDoc : FusionDoc :=
  { pageContent := "short content", title := "t", url := "https://e.com", relevanceScore := 1/2 }

/-- C8 counterexample to "the second call is served from the cache" for
*every* document list: with an empty document list both calls short-circuit
to `[]` before the cache check, so the second call is not a cache hit. -/
theorem fusion_cache_not_used_for_empty_docs :
    (createContextChunks witnessFusionConfig (fun s => s) (fun _ => "unknown")
        (createContextChunks witnessFusionConfig (fun s => s) (fun _ => "unknown")
          emptyFusionState "a" []).state "a" []).chunks =
      (createContextChunks witnessFusionConfig (fun s => s) (fun _ => "unknown")
        emptyFusionState "a" []).chunks ∧
    (createContextChunks witnessFusionConfig (fun s => s) (fun _ => "unknown")
        (createContextChunks witnessFusionConfig (fun s => s) (fun _ => "unknown")
          emptyFusionState "a" []).state "a" []).fromCache = false := by
  with_unfolding_all decide

/-- Closed witness for `fusion_cache_idempotent` on a one-document input. -/
theorem fusion_cache_idempotent_witness :
    witnessFusionConfig.skipEnhancement = true ∧
    ((createContextChunks witnessFusionConfig (fun s => s) (fun _ => "unknown")
        (createContextChunks witnessFusionConfig (fun s => s) (fun _ => "unknown")
          emptyFusionState "q" [witnessFusionDoc]).state "q" [witnessFusionDoc]).chunks =
      (createContextChunks witnessFusionConfig (fun s => s) (fun _ => "unknown")
        emptyFusionState "q" [witnessFusionDoc]).chunks ∧
    ([witnessFusionDoc].length ≠ 0 →
      (createContextChunks witnessFusionConfig (fun s => s) (fun _ => "unknown")
        (createContextChunks witnessFusionConfig (fun s => s) (fun _ => "unknown")
          emptyFusionState "q" [witnessFusionDoc]).state "q" [witnessFusionDoc]).fromCache
        = true)) :=
  ⟨rfl, fusion_cache_idempotent witnessFusionConfig (fun s => s) (fun _ => "unknown")
    emptyFusionState "q" [witnessFusionDoc] rfl⟩

end Ari
